import Mathlib

/-! # cpp2py: `std::vector` converters (`c++/cpp2py/converters/vector.hpp`)

A shallow embedding of the three entry points of `py_converter<std::vector<T>>`
(`c2py`, `is_convertible`, `py2c`) and of the two helpers
`make_numpy_proxy_from_vector` and `make_vector_from_numpy_proxy`.

Conventions of the embedding (LP64):
* `long` and `size_t` are 64 bits wide, `int` is 32 bits wide; values are `Int`/`Nat`
  and every conversion between them is written out (`to_size_t`, `to_long`, `to_int`);
* a `void *` is modelled by what the two casts used in the source see through it
  (`static_cast<T *>` and `static_cast<PyObject **>`), as partial maps from element
  index to value; a read where nothing is mapped has no defined behaviour in C++ and
  is reported as `Failure.UndefinedBehaviour`;
* the element converter `py_converter<T>` is a parameter (`ElementType`);
* importers return, next to their result, the ordered log of the element accesses
  they made (reads through `T *`, conversions of slots, writes `v[i] = ...`), so that
  "before reading any element" and "every write is within the output" can be stated;
* `std::vector<T> v(size)` throws when `size` exceeds `max_size()`, a trait of the
  element type; a write `v[i]` with `i` outside the container has no defined behaviour.
-/

namespace cpp2py

/-! ## Machine integers -/

/-- Conversion `long → size_t` (two's complement, 64 bits). -/
def to_size_t (x : Int) : Nat := (x % 2 ^ 64).toNat

/-- Conversion `size_t → long` (two's complement, 64 bits). -/
def to_long (n : Nat) : Int :=
  if n % 2 ^ 64 < 2 ^ 63 then ((n % 2 ^ 64 : Nat) : Int) else ((n % 2 ^ 64 : Nat) : Int) - 2 ^ 64

/-- Conversion `Py_ssize_t → int` (two's complement, 32 bits). -/
def to_int (x : Int) : Int :=
  if x % 2 ^ 32 < 2 ^ 31 then x % 2 ^ 32 else x % 2 ^ 32 - 2 ^ 32

/-- The quotient `stride / sizeof(...)` assigned to a `long`: the usual arithmetic
conversions take the `long` stride to `size_t`, the quotient is converted back. -/
def stride_step (stride : Int) (size : Nat) : Int := to_long (to_size_t stride / size)

/-- Product of two `long`s; `none` when it is not representable (signed overflow). -/
def long_mul (a b : Int) : Option Int :=
  if -(2 ^ 63) ≤ a * b ∧ a * b < 2 ^ 63 then some (a * b) else none

/-! ## Host objects -/

/-- Host runtime objects, as far as the converter can tell them apart.  An `ndarray`
carries its rank, dtype tag, shape, byte strides, the address of its data, what its
data shows through a `T *` (`elems`) and through a `PyObject **` (`refs`), and the
items the sequence protocol yields for it. -/
inductive PyObject (α : Type) where
  | None
  | int (n : Int)
  | str (s : String)
  | list (items : List (PyObject α))
  | ndarray (nd : Int) (type_num : Int) (dims strides : List Int) (addr : Nat)
      (elems : Int → Option α) (refs : List (PyObject α)) (items : List (PyObject α))

/-- The dtype tag `NPY_OBJECT` of numpy, which is `npy_type<pyref>`. -/
def NPY_OBJECT : Int := 17

/-- Modelled from the spec: `sizeof(pyref)` of `pyref.hpp`, the boxed-reference size
(one pointer). -/
def sizeof_pyref : Nat := 8

/-- The memory behind a `void *`: its address, what it shows through `T *` and what it
shows through `PyObject **`.  A buffer of `T` shows nothing through `PyObject **`, a
buffer of boxed references shows nothing through `T *`. -/
structure Memory (α : Type) where
  addr : Nat
  elems : Int → Option α
  refs : List (PyObject α)

/-- A `PyCapsule` named "guard": it owns the heap vector whose buffer is at `owns`. -/
structure Capsule where
  owns : Nat
deriving DecidableEq, Repr

/-- The aggregate `numpy_proxy` of `numpy_proxy.hpp`, fields in declaration order. -/
structure numpy_proxy (α : Type) where
  rank : Int
  element_type : Int
  data : Memory α
  is_const : Bool
  extents : List Int
  strides : List Int
  base : Option Capsule

/-- The error indicator of the host runtime and what `PyErr_Print` has written. -/
structure PyErrState where
  pending : Option String
  printed : List String
deriving DecidableEq, Repr

/-- What the templates know about the element type `T`: the traits `has_npy_type<T>`,
`npy_type<T>`, `sizeof(T)`, the bound `std::vector<T>::max_size()`, the value `T{}` and
the members of `py_converter<T>`. -/
structure ElementType (ε α : Type) where
  has_npy_type : Bool
  npy_type : Int
  sizeof : Nat
  max_size : Nat
  value : α
  c2py : α → PyObject α
  py2c : PyObject α → Except ε α
  is_convertible : PyObject α → Bool → PyErrState → Bool × PyErrState

/-- Ways in which an import ends without a container: the two violated `EXPECTS` (rank,
stride), the violated `ASSERT` of `py2c`, the exception of the `std::vector` constructor,
the failure `e` of the element's own `py2c`, and a step without defined behaviour in C++
(a read where nothing is mapped, a signed overflow, an index into an empty vector). -/
inductive Failure (ε : Type) where
  | PreconditionViolation
  | StrideAlignmentError
  | TypeMismatch
  | length_error
  | ElementConversionError (e : ε)
  | UndefinedBehaviour
deriving DecidableEq, Repr

/-- One element access of an importer: `load j` is the read `data[j]` through `T *`,
`convert j` is the call of `py_converter<T>::py2c` on slot (or item) `j`, `store i` is
the write `v[i] = ...` into the container under construction. -/
inductive Access where
  | load (j : Int)
  | convert (j : Int)
  | store (i : Int)
deriving DecidableEq, Repr

/-- Outcome of an import: the accesses made, in order, and the container or failure. -/
structure Import (ε α : Type) where
  log : List Access
  result : Except (Failure ε) (List α)

/-- Outcome of a probe: the returned flag, the error state left behind, and the indices
on which the element predicate was invoked, in order. -/
structure Probe where
  ret : Bool
  err : PyErrState
  probed : List Nat
deriving DecidableEq, Repr

/-! ## Host runtime functions used by the converter -/

/-- `PyArray_Check`. -/
def PyArray_Check {α : Type} : PyObject α → Bool
  | .ndarray .. => true
  | _ => false

/-- `PyArray_NDIM`. -/
def PyArray_NDIM {α : Type} : PyObject α → Int
  | .ndarray nd .. => nd
  | _ => 0

/-- `PyArray_TYPE`. -/
def PyArray_TYPE {α : Type} : PyObject α → Int
  | .ndarray _ t .. => t
  | _ => 0

/-- `PySequence_Check`: lists, strings and arrays implement the sequence protocol. -/
def PySequence_Check {α : Type} : PyObject α → Bool
  | .None => false
  | .int _ => false
  | .str _ => true
  | .list _ => true
  | .ndarray .. => true

/-- `PySequence_Fast`: the items of the object as a list; a rank-0 array cannot be
iterated and gives `NULL`, here the empty list. -/
def PySequence_Fast {α : Type} : PyObject α → List (PyObject α)
  | .None => []
  | .int _ => []
  | .str s => s.toList.map (fun c => .str (String.singleton c))
  | .list items => items
  | .ndarray nd _ _ _ _ _ _ items => if nd = 0 then [] else items

/-- `PySequence_Size`: `-1` for objects without a length. -/
def PySequence_Size {α : Type} : PyObject α → Int
  | .None => -1
  | .int _ => -1
  | .str s => s.length
  | .list items => items.length
  | .ndarray nd _ _ _ _ _ _ items => if nd = 0 then -1 else items.length

/-- `PySequence_Fast_GET_ITEM`: unchecked item access; the loops below only call it
with `i` below the length of the fast sequence. -/
def PySequence_Fast_GET_ITEM {α : Type} (seq : List (PyObject α)) (i : Nat) : PyObject α :=
  seq.getD i .None

/-- Modelled from the spec: `make_numpy_proxy` of `numpy_proxy.hpp`, which reads the
rank, dtype tag, extents, strides and data of a host array without loss. -/
def make_numpy_proxy {α : Type} : PyObject α → numpy_proxy α
  | .ndarray nd t dims strides addr elems refs _ =>
      { rank := nd, element_type := t, data := ⟨addr, elems, refs⟩, is_const := false,
        extents := dims, strides := strides, base := none }
  | _ =>
      { rank := 0, element_type := 0, data := ⟨0, fun _ => none, []⟩, is_const := false,
        extents := [], strides := [], base := none }

/-! ## Native containers and the heap -/

/-- A `std::vector<T>`: the address of its element buffer and its elements. -/
structure std_vector (α : Type) where
  data : Nat
  elems : List α

/-- The free store: the next unused buffer address and the number of element buffers
allocated so far. -/
structure Heap where
  next : Nat
  buffers : Nat
deriving DecidableEq, Repr

/-- Allocation of an element buffer for `n` elements; no buffer for `n = 0`. -/
def allocate (n : Nat) (h : Heap) : Nat × Heap :=
  if n = 0 then (0, h) else (h.next, { next := h.next + 1, buffers := h.buffers + 1 })

/-- What a buffer holding `xs` shows through `T *`, from its first element on. -/
def view {α : Type} (xs : List α) : Int → Option α :=
  fun j => if 0 ≤ j then xs[j.toNat]? else none

/-- The slot `j` of a buffer of boxed references. -/
def Memory.ref {α : Type} (m : Memory α) (j : Int) : Option (PyObject α) :=
  if 0 ≤ j then m.refs[j.toNat]? else none

/-- `new std::vector<value_type>{std::forward<V>(v)}`: a copy into a new buffer when `V`
is an lvalue reference, a move that keeps the buffer when the vector is an rvalue. -/
def new_vector {α : Type} (is_reference : Bool) (v : std_vector α) (h : Heap) :
    std_vector α × Heap :=
  if is_reference then ((⟨(allocate v.elems.length h).1, v.elems⟩ : std_vector α),
    (allocate v.elems.length h).2)
  else (v, h)

/-! ## `make_numpy_proxy_from_vector` -/

/-- The aggregate returned at lines 27-33 for the heap vector at `mem` of `size`
elements: rank, `npy_type<value_type>`, data, constness, extents `long(size)`, strides
(the constant `sizeof(value_type)`, which fits a `long`) and the capsule. -/
def heap_vector_proxy {α : Type} (npy_type : Int) (sizeof : Nat) (mem : Memory α)
    (size : Nat) : numpy_proxy α :=
  { rank := 1
    element_type := npy_type
    data := mem
    is_const := false
    extents := [to_long size]
    strides := [(sizeof : Int)]
    base := some ⟨mem.addr⟩ }

/-- `make_numpy_proxy_from_vector(V &&v)`.  `is_reference` is `std::is_reference_v<V>`.
The `else` branch converts every element with `c2py` into a vector of `pyref` and calls
the function again at `value_type = pyref` with an rvalue; that instance (the only one at
`pyref` considered here) is the `has_npy_type` branch over the buffer of references. -/
def make_numpy_proxy_from_vector {ε α : Type} (T : ElementType ε α) (is_reference : Bool)
    (v : std_vector α) (h : Heap) : numpy_proxy α × Heap :=
  if T.has_npy_type then
    let r := new_vector is_reference v h
    (heap_vector_proxy T.npy_type T.sizeof ⟨r.1.data, view r.1.elems, []⟩ r.1.elems.length, r.2)
  else
    let a := allocate v.elems.length h
    let vobj := v.elems.map T.c2py
    let r := new_vector false (⟨a.1, vobj⟩ : std_vector (PyObject α)) a.2
    (heap_vector_proxy NPY_OBJECT sizeof_pyref ⟨r.1.data, fun _ => none, r.1.elems⟩
      r.1.elems.length, r.2)

/-! ## `make_vector_from_numpy_proxy` -/

/-- The write `v[i] = x` into a `std::vector`; it has no defined behaviour unless
`i < v.size()`. -/
def store {α : Type} (v : List α) (i : Nat) (x : α) : Option (List α) :=
  if i < v.length then some (v.set i x) else none

/-- The loop of lines 64-65, `k` iterations left, at index `i`:
`v[i] = data[i * step]`. -/
def copy_loop {ε α : Type} (m : Memory α) (step : Int) :
    Nat → Nat → List Access → List α → Import ε α
  | 0, _, log, v => ⟨log, .ok v⟩
  | k + 1, i, log, v =>
    match long_mul i step with
    | none => ⟨log, .error .UndefinedBehaviour⟩
    | some j =>
      match m.elems j with
      | none => ⟨log ++ [.load j], .error .UndefinedBehaviour⟩
      | some x =>
        match store v i x with
        | none => ⟨log ++ [.load j, .store i], .error .UndefinedBehaviour⟩
        | some v1 => copy_loop m step k (i + 1) (log ++ [.load j, .store i]) v1

/-- The loop of lines 58-59, `k` iterations left, at index `i`:
`v[i] = py_converter<T>::py2c(data[i * step])`. -/
def convert_loop {ε α : Type} (T : ElementType ε α) (m : Memory α) (step : Int) :
    Nat → Nat → List Access → List α → Import ε α
  | 0, _, log, v => ⟨log, .ok v⟩
  | k + 1, i, log, v =>
    match long_mul i step with
    | none => ⟨log, .error .UndefinedBehaviour⟩
    | some j =>
      match m.ref j with
      | none => ⟨log, .error .UndefinedBehaviour⟩
      | some ob =>
        match T.py2c ob with
        | .error e => ⟨log ++ [.convert j], .error (.ElementConversionError e)⟩
        | .ok x =>
          match store v i x with
          | none => ⟨log ++ [.convert j, .store i], .error .UndefinedBehaviour⟩
          | some v1 => convert_loop T m step k (i + 1) (log ++ [.convert j, .store i]) v1

/-- Modelled from the spec: the macro `EXPECTS` of `macros.hpp`.  A violated condition
is fatal: the call ends there with the failure the condition stands for
(PreconditionViolation for the rank, StrideAlignmentError for the stride). -/
def EXPECTS {ε α : Type} (X : Bool) (violation : Failure ε) (rest : Import ε α) :
    Import ε α :=
  if X then rest else ⟨[], .error violation⟩

/-- Modelled from the spec: the macro `ASSERT` of `macros.hpp`.  In `py2c` a violated
assertion ends the call with TypeMismatch (the object is no array of rank 1 and no
sequence). -/
def ASSERT {ε α : Type} (X : Bool) (rest : Import ε α) : Import ε α :=
  if X then rest else ⟨[], .error .TypeMismatch⟩

/-- `make_vector_from_numpy_proxy<T>(numpy_proxy const &p)`.
`std::vector<T> v(size)` converts `size` to `size_t` and throws `std::length_error` when
that exceeds `max_size()`; an allocation within `max_size()` is taken to succeed.
Indexing `p.extents` or `p.strides` where they have no element has no defined
behaviour. -/
def make_vector_from_numpy_proxy {ε α : Type} (T : ElementType ε α) (p : numpy_proxy α) :
    Import ε α :=
  EXPECTS (p.extents.length == 1) .PreconditionViolation <|
    match p.extents.head? with
    | none => ⟨[], .error .UndefinedBehaviour⟩
    | some size =>
      if T.max_size < to_size_t size then ⟨[], .error .length_error⟩
      else
        let v := List.replicate (to_size_t size) T.value
        if p.element_type = NPY_OBJECT then
          match p.strides.head? with
          | none => ⟨[], .error .UndefinedBehaviour⟩
          | some s =>
            let step := stride_step s sizeof_pyref
            convert_loop T p.data step size.toNat 0 [] v
        else
          match p.strides.head? with
          | none => ⟨[], .error .UndefinedBehaviour⟩
          | some s =>
            EXPECTS (to_size_t s % T.sizeof == 0) .StrideAlignmentError <|
              let step := stride_step s T.sizeof
              copy_loop p.data step size.toNat 0 [] v

/-! ## `py_converter<std::vector<T>>` -/

/-- The member `c2py`: the proxy handed to `to_python`. -/
def c2py {ε α : Type} (T : ElementType ε α) (is_reference : Bool) (v : std_vector α)
    (h : Heap) : numpy_proxy α × Heap :=
  make_numpy_proxy_from_vector T is_reference v h

/-- The loop of lines 103-108, `k` iterations left, at index `i`. -/
def probe_loop {ε α : Type} (T : ElementType ε α) (seq : List (PyObject α))
    (raise_exception : Bool) : Nat → Nat → PyErrState → List Nat → Probe
  | 0, _, st, probed => ⟨true, st, probed⟩
  | k + 1, i, st, probed =>
    let r := T.is_convertible (PySequence_Fast_GET_ITEM seq i) raise_exception st
    if r.1 then probe_loop T seq raise_exception k (i + 1) r.2 (probed ++ [i])
    else
      match r.2.pending with
      | some msg => ⟨false, { pending := none, printed := r.2.printed ++ [msg] }, probed ++ [i]⟩
      | none => ⟨false, r.2, probed ++ [i]⟩

/-- The member `is_convertible(PyObject *ob, bool raise_exception)`; `to_string` is the
function of that name used in the message, and `_import_array()` is taken to succeed. -/
def is_convertible {ε α : Type} (T : ElementType ε α) (to_string : PyObject α → String)
    (ob : PyObject α) (raise_exception : Bool) (st : PyErrState) : Probe :=
  if PyArray_Check ob && (PyArray_TYPE ob == T.npy_type && PyArray_NDIM ob == 1) then
    ⟨true, st, []⟩
  else if !PySequence_Check ob then
    if raise_exception then
      ⟨false, { st with pending := some ("Cannot convert " ++ to_string ob ++
        " to std::vector as it is not a sequence") }, []⟩
    else ⟨false, st, []⟩
  else
    let seq := PySequence_Fast ob
    let len := to_int (PySequence_Size ob)
    probe_loop T seq raise_exception len.toNat 0 st []

/-- The loop of line 132, `k` iterations left, at index `i`:
`res.push_back(py_converter<T>::py2c(item i))`. -/
def push_loop {ε α : Type} (T : ElementType ε α) (seq : List (PyObject α)) :
    Nat → Nat → List Access → List α → Import ε α
  | 0, _, log, res => ⟨log, .ok res⟩
  | k + 1, i, log, res =>
    match T.py2c (PySequence_Fast_GET_ITEM seq i) with
    | .error e => ⟨log ++ [.convert i], .error (.ElementConversionError e)⟩
    | .ok x => push_loop T seq k (i + 1) (log ++ [.convert i]) (res ++ [x])

/-- The member `py2c(PyObject *ob)`; `_import_array()` is taken to succeed. -/
def py2c {ε α : Type} (T : ElementType ε α) (ob : PyObject α) : Import ε α :=
  if PyArray_Check ob && PyArray_NDIM ob == 1 then
    make_vector_from_numpy_proxy T (make_numpy_proxy ob)
  else
    ASSERT (PySequence_Check ob) <|
      let seq := PySequence_Fast ob
      let len := to_int (PySequence_Size ob)
      push_loop T seq len.toNat 0 [] []

/-! ## Element types used in the examples -/

/-- A native-numeric element type for the examples: 32-bit integers (`NPY_INT`, 4 bytes,
`max_size()` as in libstdc++, `PTRDIFF_MAX / sizeof(T)`), converted from and to host
integers only. -/
def int32 : ElementType String Int :=
  { has_npy_type := true
    npy_type := 5
    sizeof := 4
    max_size := (2 ^ 63 - 1) / 4
    value := 0
    c2py := fun x => .int x
    py2c := fun ob =>
      match ob with
      | .int n => .ok n
      | _ => .error "not an integer"
    is_convertible := fun ob raise_exception st =>
      match ob with
      | .int _ => (true, st)
      | _ => (false, if raise_exception then { st with pending := some "not an integer" } else st) }

/-- An opaque element type for the examples: strings (no dtype tag, 32 bytes,
`max_size()` as in libstdc++), converted from and to host strings only. -/
def string : ElementType String String :=
  { has_npy_type := false
    npy_type := -1
    sizeof := 32
    max_size := (2 ^ 63 - 1) / 32
    value := ""
    c2py := fun x => .str x
    py2c := fun ob =>
      match ob with
      | .str s => .ok s
      | _ => .error "not a string"
    is_convertible := fun ob raise_exception st =>
      match ob with
      | .str _ => (true, st)
      | _ => (false, if raise_exception then { st with pending := some "not a string" } else st) }

/-! ## Machine integers: basic facts -/

theorem to_size_t_of_nat (n : Nat) (h : n < 2 ^ 64) : to_size_t (n : Int) = n := by
  unfold to_size_t
  have h1 : ((n : Int) % 2 ^ 64) = (n : Int) := by
    apply Int.emod_eq_of_lt <;> omega
  rw [h1]; simp

theorem to_long_of_lt (n : Nat) (h : n < 2 ^ 63) : to_long n = (n : Int) := by
  unfold to_long
  have h1 : n % 2 ^ 64 = n := Nat.mod_eq_of_lt (by omega)
  rw [h1, if_pos h]

theorem long_mul_of_lt (i k : Nat) (h : i * k < 2 ^ 63) :
    long_mul (i : Int) (k : Int) = some ((i : Int) * (k : Int)) := by
  unfold long_mul
  have h1 : ((i : Int) * (k : Int)) = ((i * k : Nat) : Int) := by push_cast; rfl
  rw [if_pos]
  rw [h1]
  constructor <;> omega

theorem store_of_lt {α : Type} (v : List α) (i : Nat) (x : α) (h : i < v.length) :
    store v i x = some (v.set i x) := by
  simp [store, h]

theorem take_succ_set {α : Type} (v : List α) (i : Nat) (x : α) (h : i < v.length) :
    (v.set i x).take (i + 1) = v.take i ++ [x] := by
  rw [List.take_succ, List.set_take, List.set_eq_of_length_le (by simp)]
  simp [List.getElem?_set, h]

/-- The native loop runs to its end when every strided read is mapped: the log holds, for
each index in order, the read and the write, and the slots `i .. i + k - 1` of the
container are overwritten. -/
theorem copy_loop_ok {ε α : Type} (m : Memory α) (step : Int) (f : Nat → α) :
    ∀ (k i : Nat) (log : List Access) (v : List α), v.length = i + k →
      (∀ t, i ≤ t → t < i + k →
        long_mul (t : Int) step = some ((t : Int) * step) ∧
          m.elems ((t : Int) * step) = some (f t)) →
      (copy_loop m step k i log v : Import ε α) =
        ⟨log ++ ((List.range' i k).map (fun (t : Nat) =>
            [Access.load ((t : Int) * step), Access.store (t : Int)])).flatten,
          .ok (v.take i ++ (List.range' i k).map f)⟩ := by
  intro k
  induction k with
  | zero =>
    intro i log v hv _
    simp only [copy_loop, List.range', List.map_nil, List.append_nil, List.flatten_nil]
    rw [List.take_of_length_le (by omega)]
  | succ k ih =>
    intro i log v hv h
    obtain ⟨h1, h2⟩ := h i (le_refl _) (by omega)
    simp only [copy_loop, h1, h2, store_of_lt v i (f i) (by omega)]
    rw [ih (i + 1) _ _ (by simp; omega) (fun t ht1 ht2 => h t (by omega) (by omega))]
    simp [List.range', take_succ_set v i (f i) (by omega)]

/-- The converting loop runs to its end when every slot is mapped and converts. -/
theorem convert_loop_ok {ε α : Type} (T : ElementType ε α) (m : Memory α) (step : Int)
    (slot : Nat → PyObject α) (g : Nat → α) :
    ∀ (k i : Nat) (log : List Access) (v : List α), v.length = i + k →
      (∀ t, i ≤ t → t < i + k →
        long_mul (t : Int) step = some ((t : Int) * step) ∧
          m.ref ((t : Int) * step) = some (slot t)) →
      (∀ t, i ≤ t → t < i + k → T.py2c (slot t) = .ok (g t)) →
      convert_loop T m step k i log v =
        ⟨log ++ ((List.range' i k).map (fun (t : Nat) =>
            [Access.convert ((t : Int) * step), Access.store (t : Int)])).flatten,
          .ok (v.take i ++ (List.range' i k).map g)⟩ := by
  intro k
  induction k with
  | zero =>
    intro i log v hv _ _
    simp only [convert_loop, List.range', List.map_nil, List.append_nil, List.flatten_nil]
    rw [List.take_of_length_le (by omega)]
  | succ k ih =>
    intro i log v hv h hc
    obtain ⟨h1, h2⟩ := h i (le_refl _) (by omega)
    have h3 := hc i (le_refl _) (by omega)
    simp only [convert_loop, h1, h2, h3, store_of_lt v i (g i) (by omega)]
    rw [ih (i + 1) _ _ (by simp; omega) (fun t ht1 ht2 => h t (by omega) (by omega))
      (fun t ht1 ht2 => hc t (by omega) (by omega))]
    simp [List.range', take_succ_set v i (g i) (by omega)]

/-- The native-numeric path of the importer on a proxy of `n` elements, `n` a `long` not
above `max_size()`, whose stride passes the alignment check and whose strided reads are
all mapped. -/
theorem import_native_ok {ε α : Type} (T : ElementType ε α) (p : numpy_proxy α) (n : Nat)
    (s : Int) (f : Nat → α) (hext : p.extents = [(n : Int)])
    (hmax : n ≤ T.max_size) (hlong : n < 2 ^ 63)
    (htype : p.element_type ≠ NPY_OBJECT) (hstr : p.strides.head? = some s)
    (halign : to_size_t s % T.sizeof = 0)
    (hread : ∀ t, t < n →
      long_mul (t : Int) (stride_step s T.sizeof) =
          some ((t : Int) * stride_step s T.sizeof) ∧
        p.data.elems ((t : Int) * stride_step s T.sizeof) = some (f t)) :
    make_vector_from_numpy_proxy T p =
      ⟨((List.range n).map (fun (t : Nat) =>
          [Access.load ((t : Int) * stride_step s T.sizeof), Access.store (t : Int)])).flatten,
        .ok ((List.range n).map f)⟩ := by
  unfold make_vector_from_numpy_proxy EXPECTS
  simp only [hext, hstr, if_neg htype, List.length_singleton, beq_self_eq_true, if_true,
    List.head?_cons, halign, to_size_t_of_nat n (by omega)]
  rw [if_neg (by omega)]
  simp only [Int.toNat_ofNat]
  rw [copy_loop_ok p.data _ f n 0 [] _ (by simp) (fun t _ ht => hread t (by omega))]
  simp [List.range_eq_range']

/-- Reading a buffer through `view` at a natural index. -/
theorem view_natCast {α : Type} (xs : List α) (t : Nat) : view xs (t : Int) = xs[t]? := by
  simp [view]

theorem map_getD_range {α : Type} (xs : List α) (d : α) :
    (List.range xs.length).map (fun t => xs.getD t d) = xs := by
  apply List.ext_getElem
  · simp
  · intro i h1 h2
    simp [List.getD_eq_getElem?_getD, List.getElem?_eq_getElem h2]

/-- The proxy exported for a container of a type with a dtype tag (lines 20-33). -/
theorem export_native_eq {ε α : Type} (T : ElementType ε α) (is_reference : Bool)
    (c : std_vector α) (h : Heap) (hnum : T.has_npy_type = true) :
    (make_numpy_proxy_from_vector T is_reference c h).1 =
      heap_vector_proxy T.npy_type T.sizeof
        ⟨(new_vector is_reference c h).1.data, view c.elems, []⟩ c.elems.length := by
  unfold make_numpy_proxy_from_vector
  simp only [hnum, if_true]
  cases is_reference <;> simp [new_vector]

/-- C1. Round trip, native-numeric: for an element type with a dtype tag other than the
boxed-reference tag, importing the proxy exported for a container `c` succeeds and
returns the elements of `c`, in order.  (`sizeof(T)` and the size of `c` are values of
`long`, and the size of `c` is at most `max_size()`, as for every `std::vector<T>`.) -/
theorem C1_round_trip_native {ε α : Type} (T : ElementType ε α) (is_reference : Bool)
    (c : std_vector α) (h : Heap) (hnum : T.has_npy_type = true)
    (htag : T.npy_type ≠ NPY_OBJECT) (hsz : 0 < T.sizeof) (hsz63 : T.sizeof < 2 ^ 63)
    (hlen : c.elems.length < 2 ^ 63) (hmax : c.elems.length ≤ T.max_size) :
    (make_vector_from_numpy_proxy T
      (make_numpy_proxy_from_vector T is_reference c h).1).result = .ok c.elems := by
  rw [export_native_eq T is_reference c h hnum]
  have hs : to_size_t ((T.sizeof : Nat) : Int) = T.sizeof := to_size_t_of_nat _ (by omega)
  have hstep : stride_step ((T.sizeof : Nat) : Int) T.sizeof = 1 := by
    unfold stride_step
    rw [hs, Nat.div_self hsz]; rfl
  rw [import_native_ok T _ c.elems.length (T.sizeof : Int) (fun t => c.elems.getD t T.value)
    (by simp [heap_vector_proxy, to_long_of_lt _ hlen]) hmax hlen
    (by simpa [heap_vector_proxy] using htag)
    (by simp [heap_vector_proxy]) (by rw [hs]; exact Nat.mod_self _)]
  · simp only [map_getD_range]
  · intro t ht
    rw [hstep]
    constructor
    · have := long_mul_of_lt t 1 (by omega)
      simpa using this
    · simp only [heap_vector_proxy, mul_one, view_natCast]
      simp [List.getD_eq_getElem?_getD, List.getElem?_eq_getElem ht]

/-- C1, on the container `[1, 2, 3]` of 32-bit integers passed by reference. -/
theorem C1_round_trip_native_witness :
    (make_vector_from_numpy_proxy int32
      (make_numpy_proxy_from_vector int32 true ⟨4096, [1, 2, 3]⟩ ⟨8192, 0⟩).1).result =
        .ok [1, 2, 3] :=
  C1_round_trip_native int32 true ⟨4096, [1, 2, 3]⟩ ⟨8192, 0⟩ rfl (by decide) (by decide)
    (by decide) (by decide) (by decide)

/-- The opaque path of the importer on a proxy of `n` slots, `n` a `long` not above
`max_size()`, that are all mapped and all convert. -/
theorem import_opaque_ok {ε α : Type} (T : ElementType ε α) (p : numpy_proxy α) (n : Nat)
    (s : Int) (slot : Nat → PyObject α) (g : Nat → α) (hext : p.extents = [(n : Int)])
    (hmax : n ≤ T.max_size) (hlong : n < 2 ^ 63)
    (htype : p.element_type = NPY_OBJECT) (hstr : p.strides.head? = some s)
    (hread : ∀ t, t < n →
      long_mul (t : Int) (stride_step s sizeof_pyref) =
          some ((t : Int) * stride_step s sizeof_pyref) ∧
        p.data.ref ((t : Int) * stride_step s sizeof_pyref) = some (slot t))
    (hconv : ∀ t, t < n → T.py2c (slot t) = .ok (g t)) :
    make_vector_from_numpy_proxy T p =
      ⟨((List.range n).map (fun (t : Nat) =>
          [Access.convert ((t : Int) * stride_step s sizeof_pyref),
            Access.store (t : Int)])).flatten,
        .ok ((List.range n).map g)⟩ := by
  unfold make_vector_from_numpy_proxy EXPECTS
  simp only [hext, hstr, if_pos htype, List.length_singleton, beq_self_eq_true, if_true,
    List.head?_cons, to_size_t_of_nat n (by omega)]
  rw [if_neg (by omega)]
  simp only [Int.toNat_ofNat]
  rw [convert_loop_ok T p.data _ slot g n 0 [] _ (by simp) (fun t _ ht => hread t (by omega))
    (fun t _ ht => hconv t (by omega))]
  simp [List.range_eq_range']

/-- The proxy exported for a container of a type without a dtype tag (lines 35-43). -/
theorem export_opaque_eq {ε α : Type} (T : ElementType ε α) (is_reference : Bool)
    (c : std_vector α) (h : Heap) (hnum : T.has_npy_type = false) :
    (make_numpy_proxy_from_vector T is_reference c h).1 =
      heap_vector_proxy NPY_OBJECT sizeof_pyref
        ⟨(allocate c.elems.length h).1, fun _ => none, c.elems.map T.c2py⟩ c.elems.length := by
  unfold make_numpy_proxy_from_vector
  simp [hnum, new_vector]

/-- C2. Round trip, opaque: for an element type without a dtype tag whose converter is
lawful (`py2c (c2py x) = x` for every `x`), importing the proxy exported for a container
`c` succeeds and returns the elements of `c`, in order.  (The size of `c` is a value of
`long` and at most `max_size()`, as for every `std::vector<T>`.) -/
theorem C2_round_trip_opaque {ε α : Type} (T : ElementType ε α) (is_reference : Bool)
    (c : std_vector α) (h : Heap) (hnum : T.has_npy_type = false)
    (hlawful : ∀ x, T.py2c (T.c2py x) = .ok x) (hlen : c.elems.length < 2 ^ 63)
    (hmax : c.elems.length ≤ T.max_size) :
    (make_vector_from_numpy_proxy T
      (make_numpy_proxy_from_vector T is_reference c h).1).result = .ok c.elems := by
  rw [export_opaque_eq T is_reference c h hnum]
  have hstep : stride_step ((sizeof_pyref : Nat) : Int) sizeof_pyref = 1 := by
    unfold stride_step
    rw [to_size_t_of_nat _ (by decide)]; rfl
  rw [import_opaque_ok T _ c.elems.length (sizeof_pyref : Int)
    (fun t => T.c2py (c.elems.getD t T.value)) (fun t => c.elems.getD t T.value)
    (by simp [heap_vector_proxy, to_long_of_lt _ hlen]) hmax hlen
    (by simp [heap_vector_proxy]) (by simp [heap_vector_proxy])]
  · simp only [map_getD_range]
  · intro t ht
    rw [hstep]
    constructor
    · have := long_mul_of_lt t 1 (by omega)
      simpa using this
    · have h0 : (0 : Int) ≤ (t : Int) := Int.natCast_nonneg t
      simp [heap_vector_proxy, Memory.ref, h0, List.getD_eq_getElem?_getD,
        List.getElem?_eq_getElem ht]
  · intro t _
    exact hlawful _

/-- C2, on the container `["a", "b"]` of strings passed as an rvalue. -/
theorem C2_round_trip_opaque_witness :
    (∀ x, string.py2c (string.c2py x) = .ok x) ∧
    (make_vector_from_numpy_proxy string
      (make_numpy_proxy_from_vector string false ⟨4096, ["a", "b"]⟩ ⟨8192, 0⟩).1).result =
        .ok ["a", "b"] :=
  ⟨fun _ => rfl,
    C2_round_trip_opaque string false ⟨4096, ["a", "b"]⟩ ⟨8192, 0⟩ rfl (fun _ => rfl)
      (by decide) (by decide)⟩

/-- C4. Export shape: the proxy exported for a container `c` of an element type with a
dtype tag has rank 1, that tag, extents `[size of c]` and strides `[sizeof(T)]`.  (The
size of `c` is a value of `long`.) -/
theorem C4_export_shape {ε α : Type} (T : ElementType ε α) (is_reference : Bool)
    (c : std_vector α) (h : Heap) (hnum : T.has_npy_type = true)
    (hlen : c.elems.length < 2 ^ 63) :
    (make_numpy_proxy_from_vector T is_reference c h).1.rank = 1 ∧
    (make_numpy_proxy_from_vector T is_reference c h).1.element_type = T.npy_type ∧
    (make_numpy_proxy_from_vector T is_reference c h).1.extents = [(c.elems.length : Int)] ∧
    (make_numpy_proxy_from_vector T is_reference c h).1.strides = [(T.sizeof : Int)] := by
  rw [export_native_eq T is_reference c h hnum]
  simp [heap_vector_proxy, to_long_of_lt _ hlen]

/-- C4, on the container `[1, 2, 3]` of 32-bit integers: rank 1, tag of `int`, extents
`[3]`, strides `[4]`. -/
theorem C4_export_shape_witness :
    (make_numpy_proxy_from_vector int32 false ⟨4096, [1, 2, 3]⟩ ⟨8192, 0⟩).1.rank = 1 ∧
    (make_numpy_proxy_from_vector int32 false ⟨4096, [1, 2, 3]⟩ ⟨8192, 0⟩).1.element_type = 5 ∧
    (make_numpy_proxy_from_vector int32 false ⟨4096, [1, 2, 3]⟩ ⟨8192, 0⟩).1.extents = [3] ∧
    (make_numpy_proxy_from_vector int32 false ⟨4096, [1, 2, 3]⟩ ⟨8192, 0⟩).1.strides = [4] :=
  C4_export_shape int32 false ⟨4096, [1, 2, 3]⟩ ⟨8192, 0⟩ rfl (by decide)

/-- C7. Alignment, opaque path: the branch for the boxed-reference dtype has no alignment
check.  On the proxy with extents `[2]` and `strides[0] = 12`, which is not a multiple of
the boxed-reference size 8, the import returns the container `["a", "b"]`, having
converted the slots 0 and 1. -/
theorem C7_opaque_stride_unchecked :
    ¬ ((sizeof_pyref : Int) ∣ 12) ∧
    (make_vector_from_numpy_proxy string
        ⟨1, NPY_OBJECT, ⟨4096, fun _ => none, [.str "a", .str "b", .str "c"]⟩, false, [2],
          [12], none⟩).result = .ok ["a", "b"] ∧
    (make_vector_from_numpy_proxy string
        ⟨1, NPY_OBJECT, ⟨4096, fun _ => none, [.str "a", .str "b", .str "c"]⟩, false, [2],
          [12], none⟩).log = [.convert 0, .store 0, .convert 1, .store 1] :=
  ⟨by decide, rfl, rfl⟩

/-- C8. Rank precondition: for a proxy whose number of extents is not 1, the import fails
with PreconditionViolation before reading any element. -/
theorem C8_rank_precondition {ε α : Type} (T : ElementType ε α) (p : numpy_proxy α)
    (hrank : p.extents.length ≠ 1) :
    make_vector_from_numpy_proxy T p = ⟨[], .error .PreconditionViolation⟩ := by
  unfold make_vector_from_numpy_proxy EXPECTS
  rw [if_neg (by simpa using hrank)]

/-- C8, for a proxy with the two extents `[2, 3]`. -/
theorem C8_rank_precondition_witness :
    make_vector_from_numpy_proxy int32
        ⟨2, 5, ⟨4096, view [1, 2, 3, 4, 5, 6], []⟩, false, [2, 3], [12, 4], none⟩ =
      ⟨[], .error .PreconditionViolation⟩ :=
  C8_rank_precondition int32
    ⟨2, 5, ⟨4096, view [1, 2, 3, 4, 5, 6], []⟩, false, [2, 3], [12, 4], none⟩ (by decide)

/-- C10. Probe fast path: for a host array of rank 1 whose dtype tag is `npy_type<T>`, the
probe returns true, leaves the error state as it was and invokes the element predicate on
no element. -/
theorem C10_probe_fast_path {ε α : Type} (T : ElementType ε α)
    (to_string : PyObject α → String) (ob : PyObject α) (raise_exception : Bool)
    (st : PyErrState) (harr : PyArray_Check ob = true) (hrank : PyArray_NDIM ob = 1)
    (htag : PyArray_TYPE ob = T.npy_type) :
    is_convertible T to_string ob raise_exception st = ⟨true, st, []⟩ := by
  unfold is_convertible
  simp [harr, hrank, htag]

/-- C10, for a rank-1 array of three 32-bit integers. -/
theorem C10_probe_fast_path_witness :
    is_convertible int32 (fun _ => "ob")
        (.ndarray 1 5 [3] [4] 4096 (view [1, 2, 3]) [] [.int 1, .int 2, .int 3]) true
        ⟨none, []⟩ = ⟨true, ⟨none, []⟩, []⟩ :=
  C10_probe_fast_path int32 (fun _ => "ob")
    (.ndarray 1 5 [3] [4] 4096 (view [1, 2, 3]) [] [.int 1, .int 2, .int 3]) true
    ⟨none, []⟩ rfl rfl rfl

theorem to_int_toNat_le (x : Int) (hx : -1 ≤ x) : (to_int x).toNat ≤ x.toNat := by
  unfold to_int
  have h0 : (0 : Int) ≤ x % 2 ^ 32 := Int.emod_nonneg _ (by norm_num)
  have h1 : x % 2 ^ 32 < 2 ^ 32 := Int.emod_lt_of_pos _ (by norm_num)
  by_cases hneg : x = -1
  · subst hneg
    decide
  · have hx0 : 0 ≤ x := by omega
    split <;> omega

/-- The loops over a fast sequence stay inside it: the `int` length they run to is at
most the number of its items, for every host object. -/
theorem fast_sequence_covers_len {α : Type} (ob : PyObject α) :
    (to_int (PySequence_Size ob)).toNat ≤ (PySequence_Fast ob).length := by
  have hneg : (to_int (-1)).toNat = 0 := by decide
  cases ob with
  | None => simp [PySequence_Size, PySequence_Fast, hneg]
  | int n => simp [PySequence_Size, PySequence_Fast, hneg]
  | str s =>
    have := to_int_toNat_le (s.length : Int) (by omega)
    simpa [PySequence_Size, PySequence_Fast] using this
  | list items =>
    have := to_int_toNat_le (items.length : Int) (by omega)
    simpa [PySequence_Size, PySequence_Fast] using this
  | ndarray nd t dims strides addr elems refs items =>
    by_cases h : nd = 0
    · simp [PySequence_Size, PySequence_Fast, h, hneg]
    · have := to_int_toNat_le (items.length : Int) (by omega)
      simpa [PySequence_Size, PySequence_Fast, h] using this

/-- C13. Probe on a non-sequence: for a host object that is neither a rank-1 array of the
dtype of `T` nor sequence-like, the probe returns false and invokes the element predicate
on nothing; with the flag true it sets the pending diagnostic to its own message, with
the flag false it leaves the error state as it was. -/
theorem C13_probe_non_sequence {ε α : Type} (T : ElementType ε α)
    (to_string : PyObject α → String) (ob : PyObject α) (raise_exception : Bool)
    (st : PyErrState)
    (hfast : ¬ (PyArray_Check ob = true ∧ PyArray_TYPE ob = T.npy_type ∧ PyArray_NDIM ob = 1))
    (hseq : PySequence_Check ob = false) :
    (is_convertible T to_string ob raise_exception st).ret = false ∧
    (is_convertible T to_string ob raise_exception st).probed = [] ∧
    (raise_exception = true →
      (is_convertible T to_string ob raise_exception st).err =
        { st with pending := some ("Cannot convert " ++ to_string ob ++
          " to std::vector as it is not a sequence") }) ∧
    (raise_exception = false → (is_convertible T to_string ob raise_exception st).err = st) := by
  have h1 : (PyArray_Check ob && (PyArray_TYPE ob == T.npy_type && PyArray_NDIM ob == 1))
      = false := by
    rw [Bool.eq_false_iff]
    intro h
    apply hfast
    simpa using h
  unfold is_convertible
  rw [h1]
  cases raise_exception <;> simp [hseq]

/-- C13, on the host integer `5` with the flag true: false, and the diagnostic of the
probe is pending. -/
theorem C13_probe_non_sequence_witness :
    (is_convertible int32 (fun _ => "5") (.int 5) true ⟨none, []⟩).ret = false ∧
    (is_convertible int32 (fun _ => "5") (.int 5) true ⟨none, []⟩).probed = [] ∧
    (true = true →
      (is_convertible int32 (fun _ => "5") (.int 5) true ⟨none, []⟩).err =
        { (⟨none, []⟩ : PyErrState) with pending := some ("Cannot convert " ++ "5" ++
          " to std::vector as it is not a sequence") }) ∧
    (true = false → (is_convertible int32 (fun _ => "5") (.int 5) true ⟨none, []⟩).err =
      ⟨none, []⟩) :=
  C13_probe_non_sequence int32 (fun _ => "5") (.int 5) true ⟨none, []⟩ (by decide) rfl

/-- C14. Deep export preserves order: the proxy exported for a container `c` of an
element type without a dtype tag has the boxed-reference tag, extents `[size of c]`,
strides `[sizeof(pyref)]`, and its buffer of references is `c2py` of the elements of `c`
in container order: slot `i` holds `c2py (c[i])`.  (The size of `c` is a value of
`long`.) -/
theorem C14_deep_export_order {ε α : Type} (T : ElementType ε α) (is_reference : Bool)
    (c : std_vector α) (h : Heap) (hnum : T.has_npy_type = false)
    (hlen : c.elems.length < 2 ^ 63) :
    (make_numpy_proxy_from_vector T is_reference c h).1.element_type = NPY_OBJECT ∧
    (make_numpy_proxy_from_vector T is_reference c h).1.extents = [(c.elems.length : Int)] ∧
    (make_numpy_proxy_from_vector T is_reference c h).1.strides = [(sizeof_pyref : Int)] ∧
    (make_numpy_proxy_from_vector T is_reference c h).1.data.refs = c.elems.map T.c2py ∧
    ∀ (i : Nat) (hi : i < c.elems.length),
      (make_numpy_proxy_from_vector T is_reference c h).1.data.ref (i : Int) =
        some (T.c2py c.elems[i]) := by
  rw [export_opaque_eq T is_reference c h hnum]
  refine ⟨rfl, by simp [heap_vector_proxy, to_long_of_lt _ hlen], rfl, rfl, ?_⟩
  intro i hi
  have h0 : (0 : Int) ≤ (i : Int) := Int.natCast_nonneg i
  simp [heap_vector_proxy, Memory.ref, h0, List.getElem?_eq_getElem hi]

/-- C14, on the container `["a", "b"]` of strings. -/
theorem C14_deep_export_order_witness :
    (make_numpy_proxy_from_vector string true ⟨4096, ["a", "b"]⟩ ⟨8192, 0⟩).1.element_type =
      NPY_OBJECT ∧
    (make_numpy_proxy_from_vector string true ⟨4096, ["a", "b"]⟩ ⟨8192, 0⟩).1.extents = [2] ∧
    (make_numpy_proxy_from_vector string true ⟨4096, ["a", "b"]⟩ ⟨8192, 0⟩).1.strides = [8] ∧
    (make_numpy_proxy_from_vector string true ⟨4096, ["a", "b"]⟩ ⟨8192, 0⟩).1.data.refs =
      [.str "a", .str "b"] :=
  have h := C14_deep_export_order string true ⟨4096, ["a", "b"]⟩ ⟨8192, 0⟩ rfl (by decide)
  ⟨h.1, h.2.1, h.2.2.1, h.2.2.2.1⟩

/-- C15, as the code has it. Export by reference copies: for a non-empty container of an
element type with a dtype tag passed by reference, whose own buffer is an earlier
allocation, one new element buffer is allocated; the data of the proxy is that new
buffer, not the buffer of the caller, it holds the same elements, and the guard of the
proxy is the capsule owning the new buffer. -/
theorem C15_export_by_reference_copies {ε α : Type} (T : ElementType ε α)
    (c : std_vector α) (h : Heap) (hnum : T.has_npy_type = true) (hne : c.elems ≠ [])
    (hold : c.data < h.next) :
    (make_numpy_proxy_from_vector T true c h).2.buffers = h.buffers + 1 ∧
    (make_numpy_proxy_from_vector T true c h).1.data.addr = h.next ∧
    (make_numpy_proxy_from_vector T true c h).1.data.addr ≠ c.data ∧
    (make_numpy_proxy_from_vector T true c h).1.data.elems = view c.elems ∧
    (make_numpy_proxy_from_vector T true c h).1.base = some ⟨h.next⟩ := by
  have hlen : c.elems.length ≠ 0 := by
    intro h0
    exact hne (List.length_eq_zero.mp h0)
  have hadd : (make_numpy_proxy_from_vector T true c h).1.data.addr = h.next := by
    rw [export_native_eq T true c h hnum]
    simp [heap_vector_proxy, new_vector, allocate, hlen]
  refine ⟨?_, hadd, ?_, ?_, ?_⟩
  · simp [make_numpy_proxy_from_vector, hnum, new_vector, allocate, hlen]
  · rw [hadd]; omega
  · rw [export_native_eq T true c h hnum]
    rfl
  · rw [export_native_eq T true c h hnum]
    simp [heap_vector_proxy, new_vector, allocate, hlen]

/-- C15, as the code has it, on the container `[1, 2, 3]` of 32-bit integers at address
4096 with the next free address 8192. -/
theorem C15_export_by_reference_copies_witness :
    (make_numpy_proxy_from_vector int32 true ⟨4096, [1, 2, 3]⟩ ⟨8192, 0⟩).2.buffers = 0 + 1 ∧
    (make_numpy_proxy_from_vector int32 true ⟨4096, [1, 2, 3]⟩ ⟨8192, 0⟩).1.data.addr = 8192 ∧
    (make_numpy_proxy_from_vector int32 true ⟨4096, [1, 2, 3]⟩ ⟨8192, 0⟩).1.data.addr ≠ 4096 ∧
    (make_numpy_proxy_from_vector int32 true ⟨4096, [1, 2, 3]⟩ ⟨8192, 0⟩).1.data.elems =
      view [1, 2, 3] ∧
    (make_numpy_proxy_from_vector int32 true ⟨4096, [1, 2, 3]⟩ ⟨8192, 0⟩).1.base =
      some ⟨8192⟩ :=
  C15_export_by_reference_copies int32 ⟨4096, [1, 2, 3]⟩ ⟨8192, 0⟩ rfl (by decide)
    (by decide)

/-- C15 fails on the code. Exported by reference, the container `[1, 2, 3]` at address
4096 gives a proxy whose data is not at 4096, whose guard is not empty, and one element
buffer has been allocated. -/
theorem C15_by_reference_allocates_and_guards :
    (make_numpy_proxy_from_vector int32 true ⟨4096, [1, 2, 3]⟩ ⟨8192, 0⟩).1.data.addr ≠ 4096 ∧
    (make_numpy_proxy_from_vector int32 true ⟨4096, [1, 2, 3]⟩ ⟨8192, 0⟩).1.base ≠ none ∧
    (make_numpy_proxy_from_vector int32 true ⟨4096, [1, 2, 3]⟩ ⟨8192, 0⟩).2.buffers = 1 := by
  refine ⟨by decide, ?_, by decide⟩
  simp [make_numpy_proxy_from_vector, int32, heap_vector_proxy]

/-- C16. Zero-copy on ownership transfer: for a container of an element type with a dtype
tag passed as an rvalue, the proxy has a guard, the capsule owning the buffer at the data
pointer of the proxy; that buffer is the buffer of the source, it holds the elements of
the source, and no element buffer is allocated. -/
theorem C16_zero_copy_transfer {ε α : Type} (T : ElementType ε α) (c : std_vector α)
    (h : Heap) (hnum : T.has_npy_type = true) :
    (make_numpy_proxy_from_vector T false c h).1.base =
      some ⟨(make_numpy_proxy_from_vector T false c h).1.data.addr⟩ ∧
    (make_numpy_proxy_from_vector T false c h).1.data.addr = c.data ∧
    (make_numpy_proxy_from_vector T false c h).1.data.elems = view c.elems ∧
    (make_numpy_proxy_from_vector T false c h).2 = h := by
  refine ⟨?_, ?_, ?_, ?_⟩
  · rw [export_native_eq T false c h hnum]
    rfl
  · rw [export_native_eq T false c h hnum]
    rfl
  · rw [export_native_eq T false c h hnum]
    rfl
  · simp [make_numpy_proxy_from_vector, hnum, new_vector]

/-- C16, on the container `[1, 2, 3]` of 32-bit integers at address 4096. -/
theorem C16_zero_copy_transfer_witness :
    (make_numpy_proxy_from_vector int32 false ⟨4096, [1, 2, 3]⟩ ⟨8192, 0⟩).1.base =
      some ⟨(make_numpy_proxy_from_vector int32 false ⟨4096, [1, 2, 3]⟩ ⟨8192, 0⟩).1.data.addr⟩ ∧
    (make_numpy_proxy_from_vector int32 false ⟨4096, [1, 2, 3]⟩ ⟨8192, 0⟩).1.data.addr = 4096 ∧
    (make_numpy_proxy_from_vector int32 false ⟨4096, [1, 2, 3]⟩ ⟨8192, 0⟩).1.data.elems =
      view [1, 2, 3] ∧
    (make_numpy_proxy_from_vector int32 false ⟨4096, [1, 2, 3]⟩ ⟨8192, 0⟩).2 = ⟨8192, 0⟩ :=
  C16_zero_copy_transfer int32 ⟨4096, [1, 2, 3]⟩ ⟨8192, 0⟩ rfl

/-! ## The import entry point and the proxy path -/

theorem copy_loop_not_precondition {ε α : Type} (m : Memory α) (step : Int) :
    ∀ (k i : Nat) (log : List Access) (v : List α),
      (copy_loop m step k i log v : Import ε α).result ≠ .error .PreconditionViolation := by
  intro k
  induction k with
  | zero => intro i log v h; simp [copy_loop] at h
  | succ k ih =>
    intro i log v
    simp only [copy_loop]
    split
    · intro h; cases h
    · split
      · intro h; cases h
      · split
        · intro h; cases h
        · exact ih _ _ _

theorem convert_loop_not_precondition {ε α : Type} (T : ElementType ε α) (m : Memory α)
    (step : Int) :
    ∀ (k i : Nat) (log : List Access) (v : List α),
      (convert_loop T m step k i log v).result ≠ .error .PreconditionViolation := by
  intro k
  induction k with
  | zero => intro i log v h; simp [convert_loop] at h
  | succ k ih =>
    intro i log v
    simp only [convert_loop]
    split
    · intro h; cases h
    · split
      · intro h; cases h
      · split
        · intro h; cases h
        · split
          · intro h; cases h
          · exact ih _ _ _

theorem push_loop_not_precondition {ε α : Type} (T : ElementType ε α)
    (seq : List (PyObject α)) :
    ∀ (k i : Nat) (log : List Access) (res : List α),
      (push_loop T seq k i log res).result ≠ .error .PreconditionViolation := by
  intro k
  induction k with
  | zero => intro i log v h; simp [push_loop] at h
  | succ k ih =>
    intro i log v
    simp only [push_loop]
    split
    · intro h; cases h
    · exact ih _ _ _

/-- With exactly one extent the importer does not end in PreconditionViolation. -/
theorem import_not_precondition {ε α : Type} (T : ElementType ε α) (p : numpy_proxy α)
    (hrank : p.extents.length = 1) :
    (make_vector_from_numpy_proxy T p).result ≠ .error .PreconditionViolation := by
  unfold make_vector_from_numpy_proxy EXPECTS
  simp only [hrank, beq_self_eq_true, if_true]
  split
  · intro h; cases h
  · split
    · intro h; cases h
    · split
      · split
        · intro h; cases h
        · exact convert_loop_not_precondition T _ _ _ _ _ _
      · split
        · intro h; cases h
        · split
          · exact copy_loop_not_precondition _ _ _ _ _ _
          · intro h; cases h

/-- C19. The rank precondition is unreachable from `py2c`: given that the proxy of a host
array has as many extents as the array has dimensions, `py2c` never ends in
PreconditionViolation; it hands the object to `make_vector_from_numpy_proxy` exactly when
the object is a host array of rank 1, and a host array of any other rank is imported by
the loop over its sequence items. -/
theorem C19_rank_check_unreachable {ε α : Type} (T : ElementType ε α) (ob : PyObject α)
    (hwf : PyArray_Check ob = true →
      ((make_numpy_proxy ob).extents.length : Int) = PyArray_NDIM ob) :
    (py2c T ob).result ≠ .error .PreconditionViolation ∧
    (PyArray_Check ob = true ∧ PyArray_NDIM ob = 1 →
      py2c T ob = make_vector_from_numpy_proxy T (make_numpy_proxy ob)) ∧
    (¬ (PyArray_Check ob = true ∧ PyArray_NDIM ob = 1) →
      py2c T ob = ASSERT (PySequence_Check ob)
        (push_loop T (PySequence_Fast ob) (to_int (PySequence_Size ob)).toNat 0 [] [])) ∧
    (PyArray_Check ob = true → PyArray_NDIM ob ≠ 1 →
      py2c T ob =
        push_loop T (PySequence_Fast ob) (to_int (PySequence_Size ob)).toNat 0 [] []) := by
  have hproxy : PyArray_Check ob = true ∧ PyArray_NDIM ob = 1 →
      py2c T ob = make_vector_from_numpy_proxy T (make_numpy_proxy ob) := by
    rintro ⟨ha, hn⟩
    simp [py2c, ha, hn]
  have hseq : ¬ (PyArray_Check ob = true ∧ PyArray_NDIM ob = 1) →
      py2c T ob = ASSERT (PySequence_Check ob)
        (push_loop T (PySequence_Fast ob) (to_int (PySequence_Size ob)).toNat 0 [] []) := by
    intro hnot
    have h2 : (PyArray_Check ob && PyArray_NDIM ob == 1) = false := by
      rw [Bool.eq_false_iff]
      intro h
      apply hnot
      simpa using h
    simp [py2c, h2]
  refine ⟨?_, hproxy, hseq, ?_⟩
  · by_cases hc : PyArray_Check ob = true ∧ PyArray_NDIM ob = 1
    · rw [hproxy hc]
      apply import_not_precondition
      have := hwf hc.1
      rw [hc.2] at this
      exact_mod_cast this
    · rw [hseq hc]
      unfold ASSERT
      split
      · exact push_loop_not_precondition T _ _ _ _ _
      · intro h; cases h
  · intro ha hn
    rw [hseq (fun hc => hn hc.2)]
    have hs : PySequence_Check ob = true := by
      cases ob <;> simp_all [PyArray_Check, PySequence_Check]
    simp [ASSERT, hs]

/-- C19, on an array of rank 2 whose two rows are given as sequence items: it is
imported by the loop over its items and does not end in PreconditionViolation. -/
theorem C19_rank_check_unreachable_witness :
    (py2c string (.ndarray 2 17 [2, 1] [8, 8] 4096 (fun _ => none)
        [.str "a", .str "b"] [.str "a", .str "b"])).result ≠
      .error .PreconditionViolation ∧
    py2c string (.ndarray 2 17 [2, 1] [8, 8] 4096 (fun _ => none)
        [.str "a", .str "b"] [.str "a", .str "b"]) =
      push_loop string [.str "a", .str "b"] 2 0 [] [] :=
  have h := C19_rank_check_unreachable string (.ndarray 2 17 [2, 1] [8, 8] 4096
    (fun _ => none) [.str "a", .str "b"] [.str "a", .str "b"]) (fun _ => rfl)
  ⟨h.1, h.2.2.2 rfl (by decide)⟩

/-- The probing loop returns true exactly when the verdict of the element predicate is
true on every remaining item, the verdict being a function of the item. -/
theorem probe_loop_verdict {ε α : Type} (T : ElementType ε α) (seq : List (PyObject α))
    (raise_exception : Bool) (verdict : PyObject α → Bool)
    (hv : ∀ ob st, (T.is_convertible ob raise_exception st).1 = verdict ob) :
    ∀ (k i : Nat) (st : PyErrState) (probed : List Nat),
      (probe_loop T seq raise_exception k i st probed).ret = true ↔
        ∀ t, i ≤ t → t < i + k → verdict (PySequence_Fast_GET_ITEM seq t) = true := by
  intro k
  induction k with
  | zero =>
    intro i st probed
    simp only [probe_loop, true_iff]
    intro t h1 h2
    omega
  | succ k ih =>
    intro i st probed
    simp only [probe_loop, hv]
    by_cases hi : verdict (PySequence_Fast_GET_ITEM seq i) = true
    · rw [if_pos hi, ih]
      constructor
      · intro h t h1 h2
        by_cases hti : t = i
        · subst hti
          exact hi
        · exact h t (by omega) (by omega)
      · intro h t h1 h2
        exact h t (by omega) (by omega)
    · rw [if_neg hi]
      constructor
      · intro h
        split at h <;> simp at h
      · intro h
        exact absurd (h i (le_refl _) (by omega)) hi

/-- The probing loop stops at the first item `j` whose verdict is false: it returns
false and the items probed are `i .. j`, in order. -/
theorem probe_loop_fail_fast {ε α : Type} (T : ElementType ε α) (seq : List (PyObject α))
    (raise_exception : Bool) (verdict : PyObject α → Bool)
    (hv : ∀ ob st, (T.is_convertible ob raise_exception st).1 = verdict ob) (j : Nat) :
    ∀ (k i : Nat) (st : PyErrState) (probed : List Nat), i ≤ j → j < i + k →
      (∀ t, i ≤ t → t < j → verdict (PySequence_Fast_GET_ITEM seq t) = true) →
      verdict (PySequence_Fast_GET_ITEM seq j) = false →
      (probe_loop T seq raise_exception k i st probed).ret = false ∧
      (probe_loop T seq raise_exception k i st probed).probed =
        probed ++ List.range' i (j + 1 - i) := by
  intro k
  induction k with
  | zero => intro i st probed h1 h2; omega
  | succ k ih =>
    intro i st probed hij hjk hbefore hfail
    simp only [probe_loop, hv]
    by_cases hji : i = j
    · subst hji
      rw [if_neg (by simp [hfail])]
      split <;> simp [List.range']
    · rw [if_pos (hbefore i (le_refl _) (by omega))]
      have := ih (i + 1) (T.is_convertible (PySequence_Fast_GET_ITEM seq i) raise_exception st).2
        (probed ++ [i]) (by omega) (by omega) (fun t ht1 ht2 => hbefore t (by omega) ht2) hfail
      rw [this.1, this.2]
      have hlen : j + 1 - i = (j + 1 - (i + 1)) + 1 := by omega
      rw [hlen]
      simp [List.range']

/-- The pushing loop runs to its end when every remaining item converts. -/
theorem push_loop_ok {ε α : Type} (T : ElementType ε α) (seq : List (PyObject α))
    (g : Nat → α) :
    ∀ (k i : Nat) (log : List Access) (res : List α),
      (∀ t, i ≤ t → t < i + k → T.py2c (PySequence_Fast_GET_ITEM seq t) = .ok (g t)) →
      push_loop T seq k i log res =
        ⟨log ++ (List.range' i k).map (fun (t : Nat) => Access.convert (t : Int)),
          .ok (res ++ (List.range' i k).map g)⟩ := by
  intro k
  induction k with
  | zero =>
    intro i log res _
    simp [push_loop, List.range']
  | succ k ih =>
    intro i log res h
    simp only [push_loop, h i (le_refl _) (by omega)]
    rw [ih (i + 1) _ _ (fun t ht1 ht2 => h t (by omega) (by omega))]
    simp [List.range', Nat.cast_add]

/-- The pushing loop stops at the first item `j` whose conversion fails, with the
failure of that item, having converted the items `i .. j` in order. -/
theorem push_loop_fail {ε α : Type} (T : ElementType ε α) (seq : List (PyObject α))
    (j : Nat) (e : ε) :
    ∀ (k i : Nat) (log : List Access) (res : List α), i ≤ j → j < i + k →
      (∀ t, i ≤ t → t < j → ∃ x, T.py2c (PySequence_Fast_GET_ITEM seq t) = .ok x) →
      T.py2c (PySequence_Fast_GET_ITEM seq j) = .error e →
      push_loop T seq k i log res =
        ⟨log ++ (List.range' i (j + 1 - i)).map (fun (t : Nat) => Access.convert (t : Int)),
          .error (.ElementConversionError e)⟩ := by
  intro k
  induction k with
  | zero => intro i log res h1 h2; omega
  | succ k ih =>
    intro i log res hij hjk hbefore hfail
    by_cases hji : i = j
    · subst hji
      simp only [push_loop, hfail]
      simp [List.range']
    · obtain ⟨x, hx⟩ := hbefore i (le_refl _) (by omega)
      simp only [push_loop, hx]
      rw [ih (i + 1) _ _ (by omega) (by omega) (fun t ht1 ht2 => hbefore t (by omega) ht2)
        hfail]
      have hlen : j + 1 - i = (j + 1 - (i + 1)) + 1 := by omega
      rw [hlen]
      simp [List.range', Nat.cast_add]

/-- A length that fits an `int` is not changed by the conversion. -/
theorem to_int_of_lt (x : Int) (h0 : 0 ≤ x) (h1 : x < 2 ^ 31) : to_int x = x := by
  unfold to_int
  have h2 : x % 2 ^ 32 = x := Int.emod_eq_of_lt h0 (by omega)
  rw [h2, if_pos h1]

/-- For a host object with fewer than `2^31` items the loops run over all the items of
its fast sequence. -/
theorem fast_sequence_len_eq {α : Type} (ob : PyObject α) (hseq : PySequence_Check ob = true)
    (hsmall : PySequence_Size ob < 2 ^ 31) :
    (to_int (PySequence_Size ob)).toNat = (PySequence_Fast ob).length := by
  have hneg : (to_int (-1)).toNat = 0 := by decide
  cases ob with
  | None => simp [PySequence_Check] at hseq
  | int n => simp [PySequence_Check] at hseq
  | str s =>
    simp only [PySequence_Size] at hsmall
    simp [PySequence_Size, PySequence_Fast, to_int_of_lt _ (Int.natCast_nonneg _) hsmall]
  | list items =>
    simp only [PySequence_Size] at hsmall
    simp [PySequence_Size, PySequence_Fast, to_int_of_lt _ (Int.natCast_nonneg _) hsmall]
  | ndarray nd t dims strides addr elems refs items =>
    by_cases h : nd = 0
    · simp [PySequence_Size, PySequence_Fast, h, hneg]
    · simp only [PySequence_Size, h, if_false] at hsmall
      simp [PySequence_Size, PySequence_Fast, h,
        to_int_of_lt _ (Int.natCast_nonneg _) hsmall]

/-! ## The sequence path below `2^31` items -/

theorem is_convertible_slow_path {ε α : Type} (T : ElementType ε α)
    (to_string : PyObject α → String) (ob : PyObject α) (raise_exception : Bool)
    (st : PyErrState)
    (hfast : ¬ (PyArray_Check ob = true ∧ PyArray_TYPE ob = T.npy_type ∧ PyArray_NDIM ob = 1))
    (hseq : PySequence_Check ob = true) :
    is_convertible T to_string ob raise_exception st =
      probe_loop T (PySequence_Fast ob) raise_exception (to_int (PySequence_Size ob)).toNat 0
        st [] := by
  have h1 : (PyArray_Check ob && (PyArray_TYPE ob == T.npy_type && PyArray_NDIM ob == 1))
      = false := by
    rw [Bool.eq_false_iff]
    intro h
    apply hfast
    simpa using h
  unfold is_convertible
  rw [h1]
  simp [hseq]

theorem py2c_sequence_path {ε α : Type} (T : ElementType ε α) (ob : PyObject α)
    (hnot : ¬ (PyArray_Check ob = true ∧ PyArray_NDIM ob = 1))
    (hseq : PySequence_Check ob = true) :
    py2c T ob =
      push_loop T (PySequence_Fast ob) (to_int (PySequence_Size ob)).toNat 0 [] [] := by
  have h2 : (PyArray_Check ob && PyArray_NDIM ob == 1) = false := by
    rw [Bool.eq_false_iff]
    intro h
    apply hnot
    simpa using h
  simp [py2c, h2, ASSERT, hseq]

/-- An object that is neither a host array of rank 1 nor a sequence is not imported:
the `ASSERT` of `py2c` ends the call before any item is converted. -/
theorem py2c_type_mismatch {ε α : Type} (T : ElementType ε α) (ob : PyObject α)
    (hnot : ¬ (PyArray_Check ob = true ∧ PyArray_NDIM ob = 1))
    (hseq : PySequence_Check ob = false) :
    py2c T ob = ⟨[], .error .TypeMismatch⟩ := by
  have h2 : (PyArray_Check ob && PyArray_NDIM ob == 1) = false := by
    rw [Bool.eq_false_iff]
    intro h
    apply hnot
    simpa using h
  simp [py2c, h2, ASSERT, hseq]

/-- Below `2^31` items the probe of a sequence off the fast path is true exactly when the
verdict of the element predicate is true on every item. -/
theorem probe_slow_path_small {ε α : Type} (T : ElementType ε α)
    (to_string : PyObject α → String) (ob : PyObject α) (raise_exception : Bool)
    (st : PyErrState) (verdict : PyObject α → Bool)
    (hv : ∀ ob st, (T.is_convertible ob raise_exception st).1 = verdict ob)
    (hfast : ¬ (PyArray_Check ob = true ∧ PyArray_TYPE ob = T.npy_type ∧ PyArray_NDIM ob = 1))
    (hseq : PySequence_Check ob = true) (hsmall : PySequence_Size ob < 2 ^ 31) :
    (is_convertible T to_string ob raise_exception st).ret = true ↔
      ∀ t, t < (PySequence_Fast ob).length →
        verdict (PySequence_Fast_GET_ITEM (PySequence_Fast ob) t) = true := by
  rw [is_convertible_slow_path T to_string ob raise_exception st hfast hseq,
    probe_loop_verdict T _ raise_exception verdict hv, fast_sequence_len_eq ob hseq hsmall]
  constructor
  · intro h t ht
    exact h t (Nat.zero_le _) (by omega)
  · intro h t _ ht
    exact h t (by omega)

/-- Below `2^31` items the probe of a sequence off the fast path whose first item with a
false verdict is at index `j` returns false, having probed the items `0 .. j` in order. -/
theorem probe_fail_fast_small {ε α : Type} (T : ElementType ε α)
    (to_string : PyObject α → String) (ob : PyObject α) (raise_exception : Bool)
    (st : PyErrState) (verdict : PyObject α → Bool)
    (hv : ∀ ob st, (T.is_convertible ob raise_exception st).1 = verdict ob)
    (hfast : ¬ (PyArray_Check ob = true ∧ PyArray_TYPE ob = T.npy_type ∧ PyArray_NDIM ob = 1))
    (hseq : PySequence_Check ob = true) (hsmall : PySequence_Size ob < 2 ^ 31) (j : Nat)
    (hj : j < (PySequence_Fast ob).length)
    (hbefore : ∀ t, t < j → verdict (PySequence_Fast_GET_ITEM (PySequence_Fast ob) t) = true)
    (hfail : verdict (PySequence_Fast_GET_ITEM (PySequence_Fast ob) j) = false) :
    (is_convertible T to_string ob raise_exception st).ret = false ∧
    (is_convertible T to_string ob raise_exception st).probed = List.range (j + 1) := by
  rw [is_convertible_slow_path T to_string ob raise_exception st hfast hseq,
    fast_sequence_len_eq ob hseq hsmall]
  have := probe_loop_fail_fast T (PySequence_Fast ob) raise_exception verdict hv j
    (PySequence_Fast ob).length 0 st [] (Nat.zero_le _) (by omega)
    (fun t _ ht => hbefore t ht) hfail
  simpa [List.range_eq_range'] using this

/-- Below `2^31` items the import of a sequence that is not a rank-1 array returns the
conversions of its items, in order, when every item converts. -/
theorem sequence_import_small_ok {ε α : Type} (T : ElementType ε α) (ob : PyObject α)
    (g : Nat → α) (hnot : ¬ (PyArray_Check ob = true ∧ PyArray_NDIM ob = 1))
    (hseq : PySequence_Check ob = true) (hsmall : PySequence_Size ob < 2 ^ 31)
    (hall : ∀ t, t < (PySequence_Fast ob).length →
      T.py2c (PySequence_Fast_GET_ITEM (PySequence_Fast ob) t) = .ok (g t)) :
    py2c T ob =
      ⟨(List.range (PySequence_Fast ob).length).map (fun (t : Nat) => Access.convert (t : Int)),
        .ok ((List.range (PySequence_Fast ob).length).map g)⟩ := by
  rw [py2c_sequence_path T ob hnot hseq, fast_sequence_len_eq ob hseq hsmall,
    push_loop_ok T _ g _ 0 [] [] (fun t _ ht => hall t (by omega))]
  simp [List.range_eq_range']

/-- Below `2^31` items the import of a sequence that is not a rank-1 array fails with
the failure of the first item that does not convert, having converted the items before
it and that item only. -/
theorem sequence_import_small_fail {ε α : Type} (T : ElementType ε α) (ob : PyObject α)
    (j : Nat) (e : ε) (hnot : ¬ (PyArray_Check ob = true ∧ PyArray_NDIM ob = 1))
    (hseq : PySequence_Check ob = true) (hsmall : PySequence_Size ob < 2 ^ 31)
    (hj : j < (PySequence_Fast ob).length)
    (hbefore : ∀ t, t < j →
      ∃ x, T.py2c (PySequence_Fast_GET_ITEM (PySequence_Fast ob) t) = .ok x)
    (hfail : T.py2c (PySequence_Fast_GET_ITEM (PySequence_Fast ob) j) = .error e) :
    py2c T ob =
      ⟨(List.range (j + 1)).map (fun (t : Nat) => Access.convert (t : Int)),
        .error (.ElementConversionError e)⟩ := by
  rw [py2c_sequence_path T ob hnot hseq, fast_sequence_len_eq ob hseq hsmall,
    push_loop_fail T _ j e _ 0 [] [] (Nat.zero_le _) (by omega)
      (fun t _ ht => hbefore t ht) hfail]
  simp [List.range_eq_range']

/-- The probe of the sequence `[1, "x", 3]` for 32-bit integers with the flag true:
false, the items 0 and 1 probed, and the diagnostic of item 1 printed. -/
theorem probe_heterogeneous_sequence :
    is_convertible int32 (fun _ => "ob") (.list [.int 1, .str "x", .int 3]) true ⟨none, []⟩ =
      ⟨false, ⟨none, ["not an integer"]⟩, [0, 1]⟩ := by
  rfl

/-! ## The sequence path from `2^31` items on -/

theorem to_int_two_pow_31 : (to_int ((2 ^ 31 : Nat) : Int)).toNat = 0 := by decide

theorem to_int_two_pow_32_succ : (to_int ((2 ^ 32 + 1 : Nat) : Int)).toNat = 1 := by decide

/-- A list whose length is narrowed to an `int` that is not positive is probed without a
look at any item. -/
theorem probe_list_len_zero {ε α : Type} (T : ElementType ε α)
    (to_string : PyObject α → String) (items : List (PyObject α)) (raise_exception : Bool)
    (st : PyErrState) (h : (to_int ((items.length : Nat) : Int)).toNat = 0) :
    is_convertible T to_string (.list items) raise_exception st = ⟨true, st, []⟩ := by
  rw [is_convertible_slow_path T to_string (.list items) raise_exception st
    (by simp [PyArray_Check]) rfl]
  have hsize : PySequence_Size (.list items : PyObject α) = ((items.length : Nat) : Int) := rfl
  rw [hsize, h]
  rfl

/-- A list whose length is narrowed to the `int` 1 is probed on its first item only. -/
theorem probe_list_len_one {ε α : Type} (T : ElementType ε α)
    (to_string : PyObject α → String) (x : PyObject α) (rest : List (PyObject α))
    (raise_exception : Bool) (st st1 : PyErrState)
    (h : (to_int (((x :: rest).length : Nat) : Int)).toNat = 1)
    (hx : T.is_convertible x raise_exception st = (true, st1)) :
    is_convertible T to_string (.list (x :: rest)) raise_exception st = ⟨true, st1, [0]⟩ := by
  rw [is_convertible_slow_path T to_string (.list (x :: rest)) raise_exception st
    (by simp [PyArray_Check]) rfl]
  have hsize : PySequence_Size (.list (x :: rest) : PyObject α) =
      (((x :: rest).length : Nat) : Int) := rfl
  rw [hsize, h]
  have hitem : PySequence_Fast_GET_ITEM (PySequence_Fast (.list (x :: rest))) 0 = x := rfl
  simp only [probe_loop, hitem, hx, if_true, List.nil_append]

/-- A list whose length is narrowed to an `int` that is not positive is imported as the
empty container. -/
theorem import_list_len_zero {ε α : Type} (T : ElementType ε α)
    (items : List (PyObject α)) (h : (to_int ((items.length : Nat) : Int)).toNat = 0) :
    py2c T (.list items) = ⟨[], .ok []⟩ := by
  rw [py2c_sequence_path T (.list items) (by simp [PyArray_Check]) rfl]
  have hsize : PySequence_Size (.list items : PyObject α) = ((items.length : Nat) : Int) := rfl
  rw [hsize, h]
  rfl

theorem item_one_cons_replicate {α : Type} (x y : PyObject α) (n : Nat) (hn : 0 < n) :
    PySequence_Fast_GET_ITEM (x :: List.replicate n y) 1 = y := by
  obtain ⟨m, rfl⟩ := Nat.exists_eq_succ_of_ne_zero (Nat.pos_iff_ne_zero.mp hn)
  simp [PySequence_Fast_GET_ITEM, List.replicate_succ]

/-- C11. The length of the sequence is narrowed to `int`. For the list of `2^31` strings
and the element type of 32-bit integers, the element predicate is false on every string,
the list is a sequence, and the probe returns true without a look at any item. -/
theorem C11_probe_true_on_long_sequence :
    (∀ s st, (int32.is_convertible (.str s) false st).1 = false) ∧
    (List.replicate (2 ^ 31) (PyObject.str "x" : PyObject Int)).length = 2 ^ 31 ∧
    is_convertible int32 (fun _ => "ob") (.list (List.replicate (2 ^ 31) (.str "x"))) false
      ⟨none, []⟩ = ⟨true, ⟨none, []⟩, []⟩ :=
  ⟨fun _ _ => rfl, List.length_replicate _ _,
    probe_list_len_zero int32 _ _ false _
      (by rw [List.length_replicate]; exact to_int_two_pow_31)⟩

/-- C12. The length of the sequence is narrowed to `int`. For the list of the integer 1
followed by `2^32` strings, whose first item failing the predicate of 32-bit integers is
at index 1, the probe returns true after invoking the predicate on item 0 only. -/
theorem C12_probe_skips_first_failing_item :
    (∀ st, (int32.is_convertible (.int 1) true st).1 = true) ∧
    (∀ st, (int32.is_convertible
      (PySequence_Fast_GET_ITEM (.int 1 :: List.replicate (2 ^ 32) (.str "x")) 1) true st).1 =
        false) ∧
    is_convertible int32 (fun _ => "ob")
      (.list (.int 1 :: List.replicate (2 ^ 32) (.str "x"))) true ⟨none, []⟩ =
        ⟨true, ⟨none, []⟩, [0]⟩ :=
  ⟨fun _ => rfl,
    fun _ => by rw [item_one_cons_replicate _ _ _ (Nat.pos_pow_of_pos 32 (by decide))]; rfl,
    probe_list_len_one int32 _ _ _ true _ _
      (by rw [List.length_cons, List.length_replicate]; exact to_int_two_pow_32_succ) rfl⟩

/-- C17. The length of the sequence is narrowed to `int`. For the list of `2^31` host
integers, each of which converts, the import returns the empty container and converts no
item. -/
theorem C17_import_drops_long_sequence :
    (List.replicate (2 ^ 31) (PyObject.int 1 : PyObject Int)).length = 2 ^ 31 ∧
    int32.py2c (.int 1) = .ok 1 ∧
    py2c int32 (.list (List.replicate (2 ^ 31) (.int 1))) = ⟨[], .ok []⟩ :=
  ⟨List.length_replicate _ _, rfl,
    import_list_len_zero int32 _ (by rw [List.length_replicate]; exact to_int_two_pow_31)⟩

/-! ## Probe and import side by side -/

end cpp2py
